import Mathlib

/-
Verification of the ai-pipeline service (src/main.py): a four-stage batch
pipeline (fetch identifiers, classify each with an LLM, persist to a JSON
file, notify) exposed over a POST endpoint.

The embedding is a shallow one.  External effects are oracles passed in as
parameters:
  - the outcome of each HTTP request to the identifier source
    (an exception message, or the uuid string extracted from the body);
  - the outcome of each classifier call, combined with the strict JSON
    parse of the returned text (an exception message, or the parsed JSON
    value);
  - an oracle for an unexpected exception escaping one identifier's
    processing inside the defensive try of Stage 2 (the except branch at
    src/main.py:132-134); in the code itself nothing inside that try can
    raise once analyze_with_ai is total, but the catch is modelled live;
  - the result store file, modelled as absent, present-but-unparseable, or
    a parsed JSON document;
  - the clock, a stream of opaque ISO timestamp strings.
Python values flowing out of json.loads are dynamically typed, so they are
modelled by an untyped Json value; in particular analyze_with_ai returns a
pair of Json values, exactly as the Python function returns whatever the
parsed response holds.
-/

/-- JSON values, the model of Python values produced by json.loads and
consumed by json.dump.  Objects are association lists. -/
inductive Json where
  | null
  | bool (b : Bool)
  | num (n : Int)
  | str (s : String)
  | arr (xs : List Json)
  | obj (fields : List (String × Json))

/-- Python subscripting `parsed[k]` on a decoded JSON value: a KeyError when
the key is missing from an object, a TypeError when the value is not a dict.
The error strings model str(e) of the raised exception. -/
def Json.getItem : Json → String → Except String Json
  | .obj fields, k =>
      match fields.lookup k with
      | some v => .ok v
      | none => .error ("KeyError: " ++ k)
  | _, k => .error ("TypeError: not subscriptable: " ++ k)

/-- Embedding of fetch_uuids (src/main.py:23-34).  `attempts i` is the
outcome of the i-th GET to the identifier source, combined with
raise_for_status and the body parse: an exception message, or the uuid
string.  A failed attempt is skipped; successes are kept in order. -/
def fetch_uuids (attempts : Nat → Except String String) (count : Nat) : List String :=
  (List.range count).filterMap (fun i => (attempts i).toOption)

/-- Embedding of analyze_with_ai (src/main.py:36-59).  `apiResult` is the
outcome of client construction, the chat-completion call, strip, and
json.loads on the returned text: an exception message, or the parsed JSON
value.  The subscripts parsed["analysis"] and parsed["sentiment"] are then
performed here; any error anywhere yields the degraded pair. -/
def analyze_with_ai (apiResult : Except String Json) : Json × Json :=
  match apiResult.bind (fun parsed =>
      (parsed.getItem "analysis").bind (fun a =>
        (parsed.getItem "sentiment").bind (fun s => .ok (a, s)))) with
  | .ok p => p
  | .error e => (.str ("Analysis unavailable: " ++ e), .str "neutral")

/-- The pipeline_results.json file: absent, present but not valid JSON, or
holding a parsed JSON document. -/
inductive FileState where
  | absent
  | corrupt
  | content (j : Json)

/-- Embedding of store_results (src/main.py:61-80).  Reads the existing
document (empty list when the file is absent), extends it with the new
records, rewrites the file; any exception (parse failure of the existing
file, or .extend on a non-list) returns false and leaves the file as it
was, since the write happens last. -/
def store_results (results : List Json) (fs : FileState) : Bool × FileState :=
  match fs with
  | .absent => (true, .content (.arr results))
  | .corrupt => (false, fs)
  | .content (.arr xs) => (true, .content (.arr (xs ++ results)))
  | .content _ => (false, fs)

/-- Embedding of send_notification (src/main.py:82-96).  The function only
formats a message and prints it; printing is a pure no-op in the embedding,
so the try never raises and the function returns true. -/
def send_notification (_email : String) (_success_count _error_count : Nat) : Bool :=
  true

/-- One AnalysisResult record (the dict built at src/main.py:122-128).
analysis and sentiment are whatever Json values analyze_with_ai returned. -/
structure AnalysisResult where
  original : String
  analysis : Json
  sentiment : Json
  stored : Bool
  timestamp : String

/-- The JSON shape of an AnalysisResult as json.dump sees the dict. -/
def AnalysisResult.toJson (r : AnalysisResult) : Json :=
  .obj [("original", .str r.original), ("analysis", r.analysis),
        ("sentiment", r.sentiment), ("stored", .bool r.stored),
        ("timestamp", .str r.timestamp)]

/-- The response dict of run_pipeline.  processedAt is an Option because the
Stage-1 abort path omits the key (src/main.py:112). -/
structure PipelineResponse where
  items : List AnalysisResult
  notificationSent : Bool
  processedAt : Option String
  errors : List String

/-- The oracles one run of the pipeline consumes. -/
structure PipelineEnv where
  fetch : Nat → Except String String
  api : Nat → Except String Json
  exn : Nat → Option String
  store : FileState
  clock : Nat → String

/-- Processing of the idx-th fetched identifier inside the Stage-2 try
(src/main.py:118-130): either the unexpected-exception oracle fires and the
body raises, or analyze_with_ai runs and the result dict is built with
stored=false and a fresh timestamp. -/
def processItem (env : PipelineEnv) (idx : Nat) (uuid : String) : Except String AnalysisResult :=
  match env.exn idx with
  | some msg => .error msg
  | none =>
      let p := analyze_with_ai (env.api idx)
      .ok { original := uuid, analysis := p.1, sentiment := p.2,
            stored := false, timestamp := env.clock idx }

/-- The Stage-2 loop (src/main.py:117-134) over the indexed identifiers: a
success appends one result, an escaped exception appends one error string
and no result. -/
def stage2 (env : PipelineEnv) : List (Nat × String) → List AnalysisResult × List String
  | [] => ([], [])
  | (i, u) :: rest =>
      match processItem env i u with
      | .ok r =>
          let acc := stage2 env rest
          (r :: acc.1, acc.2)
      | .error e =>
          let acc := stage2 env rest
          (acc.1, ("Failed to process UUID " ++ u ++ ": " ++ e) :: acc.2)

/-- Everything one run of the pipeline produces: the response, the store
file afterwards, and the trace of component functions it invoked. -/
structure RunOutput where
  resp : PipelineResponse
  store : FileState
  calls : List String

/-- Embedding of run_pipeline (src/main.py:100-157).  Stage 1 fetches 3
uuids and aborts with the fixed error response when none arrived; otherwise
Stage 2 classifies each, Stage 3 appends the result dicts (still carrying
stored=false) to the store and then sets every stored flag to the store
outcome, Stage 4 notifies, and the response carries a processedAt stamp. -/
def run_pipeline (email : String) (env : PipelineEnv) : RunOutput :=
  let uuids := fetch_uuids env.fetch 3
  if uuids.isEmpty then
    { resp := { items := [], notificationSent := false, processedAt := none,
                errors := ["Failed to fetch any UUIDs"] },
      store := env.store,
      calls := ["fetch_uuids"] }
  else
    let pr := stage2 env uuids.enum
    let stored := store_results (pr.1.map AnalysisResult.toJson) env.store
    let items := pr.1.map (fun r => { r with stored := stored.1 })
    let sent := send_notification email items.length pr.2.length
    { resp := { items := items, notificationSent := sent,
                processedAt := some (env.clock uuids.length),
                errors := pr.2 },
      store := stored.2,
      calls := ["fetch_uuids", "store_results", "send_notification"] }

/-- The request body of POST /pipeline (src/main.py:161-163). -/
structure PipelineRequest where
  email : String
  source : String

/-- What the HTTP layer returns for one POST /pipeline request: the status
code, either an error detail or the response body, and the store file
afterwards. -/
structure HttpResult where
  status : Nat
  body : Except String PipelineResponse
  store : FileState
  calls : List String

/-- Embedding of pipeline_endpoint (src/main.py:165-175): an exact,
case-sensitive check of the source field; a mismatch raises HTTPException
400 with a fixed detail before run_pipeline is reached. -/
def pipeline_endpoint (req : PipelineRequest) (env : PipelineEnv) : HttpResult :=
  if req.source = "HTTPBin UUID" then
    let out := run_pipeline req.email env
    { status := 200, body := .ok out.resp, store := out.store, calls := out.calls }
  else
    { status := 400, body := .error "Source must be \x27HTTPBin UUID\x27",
      store := env.store, calls := [] }

/-- The boolean store_results returns for the batch of a given run: the
Stage-3 outcome every item's stored flag is set to (src/main.py:140-142). -/
def storage_outcome (env : PipelineEnv) : Bool :=
  (store_results ((stage2 env (fetch_uuids env.fetch 3).enum).1.map AnalysisResult.toJson) env.store).1

/-- The record sequence a store file parses to, when it parses to one. -/
def loadSeq : FileState → Option (List Json)
  | .content (.arr xs) => some xs
  | _ => none

/-- The record sequence store_results starts from: empty when the file is
absent, the parsed array when there is one. -/
def priorSeq : FileState → List Json
  | .content (.arr xs) => xs
  | _ => []

/-- Total extraction of a successful attempt's value, used to state the
order of fetched identifiers. -/
def okValue : Except String String → String
  | .ok u => u
  | .error _ => ""

/-- The result dict built for the idx-th identifier when no exception
escapes its processing. -/
def mkItem (env : PipelineEnv) (idx : Nat) (uuid : String) : AnalysisResult :=
  { original := uuid,
    analysis := (analyze_with_ai (env.api idx)).1,
    sentiment := (analyze_with_ai (env.api idx)).2,
    stored := false,
    timestamp := env.clock idx }

theorem processItem_eq (env : PipelineEnv) (idx : Nat) (uuid : String) :
    processItem env idx uuid =
      match env.exn idx with
      | some msg => .error msg
      | none => .ok (mkItem env idx uuid) := by
  cases h : env.exn idx <;> simp [processItem, mkItem, h]

theorem stage2_fst (env : PipelineEnv) (l : List (Nat × String)) :
    (stage2 env l).1 = l.filterMap (fun p =>
      match env.exn p.1 with
      | some _ => none
      | none => some (mkItem env p.1 p.2)) := by
  induction l with
  | nil => rfl
  | cons p rest ih =>
      obtain ⟨i, u⟩ := p
      rw [List.filterMap_cons]
      cases h : env.exn i with
      | none =>
          simp only [stage2, processItem_eq, h, ← ih]
      | some m =>
          simp only [stage2, processItem_eq, h, ← ih]

theorem stage2_snd (env : PipelineEnv) (l : List (Nat × String)) :
    (stage2 env l).2 = l.filterMap (fun p =>
      (env.exn p.1).map (fun m => "Failed to process UUID " ++ p.2 ++ ": " ++ m)) := by
  induction l with
  | nil => rfl
  | cons p rest ih =>
      obtain ⟨i, u⟩ := p
      rw [List.filterMap_cons]
      cases h : env.exn i with
      | none => simp [stage2, processItem_eq, h, ih]
      | some m => simp [stage2, processItem_eq, h, ih]

theorem stage2_length (env : PipelineEnv) (l : List (Nat × String)) :
    (stage2 env l).1.length + (stage2 env l).2.length = l.length := by
  induction l with
  | nil => rfl
  | cons p rest ih =>
      obtain ⟨i, u⟩ := p
      cases h : env.exn i with
      | none =>
          simp only [stage2, processItem_eq, h, List.length_cons]
          omega
      | some m =>
          simp only [stage2, processItem_eq, h, List.length_cons]
          omega

theorem filterMap_toOption_eq (attempts : Nat → Except String String) (l : List Nat) :
    l.filterMap (fun i => (attempts i).toOption) =
      (l.filter (fun i => (attempts i).isOk)).map (fun i => okValue (attempts i)) := by
  simp only [Except.toOption, Except.isOk, Except.toBool, okValue]
  induction l with
  | nil => rfl
  | cons i rest ih =>
      rw [List.filterMap_cons, List.filter_cons]
      cases h : attempts i with
      | ok u => simp [h, ih]
      | error e => simp [h, ih]

theorem run_pipeline_of_ne (email : String) (env : PipelineEnv)
    (h : fetch_uuids env.fetch 3 ≠ []) :
    run_pipeline email env =
      { resp := { items := (stage2 env (fetch_uuids env.fetch 3).enum).1.map
                    (fun r => { r with stored := storage_outcome env }),
                  notificationSent := true,
                  processedAt := some (env.clock (fetch_uuids env.fetch 3).length),
                  errors := (stage2 env (fetch_uuids env.fetch 3).enum).2 },
        store := (store_results
                    ((stage2 env (fetch_uuids env.fetch 3).enum).1.map AnalysisResult.toJson)
                    env.store).2,
        calls := ["fetch_uuids", "store_results", "send_notification"] } := by
  have hb : (fetch_uuids env.fetch 3).isEmpty = false := by
    cases hu : fetch_uuids env.fetch 3 with
    | nil => exact absurd hu h
    | cons a l => rfl
  simp only [run_pipeline, hb, Bool.false_eq_true, if_false, send_notification, storage_outcome]

theorem run_pipeline_of_empty (email : String) (env : PipelineEnv)
    (h : fetch_uuids env.fetch 3 = []) :
    run_pipeline email env =
      { resp := { items := [], notificationSent := false, processedAt := none,
                  errors := ["Failed to fetch any UUIDs"] },
        store := env.store,
        calls := ["fetch_uuids"] } := by
  simp only [run_pipeline, h, List.isEmpty_nil, if_true]

/-- A concrete environment in which every fetch attempt succeeds with the
uuid "u", every classifier call raises "boom", no unexpected exception
fires, the store file is absent and the clock always reads "t". -/
def envAllOk : PipelineEnv :=
  { fetch := fun _ => .ok "u",
    api := fun _ => .error "boom",
    exn := fun _ => none,
    store := .absent,
    clock := fun _ => "t" }

/-- A concrete environment in which every fetch attempt fails, over a
non-empty store file. -/
def envAllFail : PipelineEnv :=
  { fetch := fun _ => .error "net down",
    api := fun _ => .error "boom",
    exn := fun _ => none,
    store := .content (.arr [Json.num 1]),
    clock := fun _ => "t" }

/-- The result dict the pipeline builds for "u" under envAllOk once the
stored flag has been set by Stage 3. -/
def item0 : AnalysisResult :=
  { original := "u",
    analysis := .str ("Analysis unavailable: " ++ "boom"),
    sentiment := .str "neutral",
    stored := true,
    timestamp := "t" }

/-- C1: when fetch_uuids comes back empty, run_pipeline returns exactly the
abort response, whose items are empty, notificationSent is false, errors is
the single fixed string, and which carries no processedAt key; on every
non-abort path the response carries a processedAt key. -/
theorem spec_C1_abort_response (email : String) (env : PipelineEnv) :
    (fetch_uuids env.fetch 3 = [] →
      (run_pipeline email env).resp =
        { items := [], notificationSent := false, processedAt := none,
          errors := ["Failed to fetch any UUIDs"] }) ∧
    (fetch_uuids env.fetch 3 ≠ [] →
      ((run_pipeline email env).resp.processedAt).isSome = true) := by
  constructor
  · intro h
    rw [run_pipeline_of_empty email env h]
  · intro h
    rw [run_pipeline_of_ne email env h]
    rfl

/-- C1 witness: the abort response under envAllFail and the presence of
processedAt under envAllOk. -/
theorem spec_C1_witness :
    (run_pipeline "a@b.com" envAllFail).resp =
      { items := [], notificationSent := false, processedAt := none,
        errors := ["Failed to fetch any UUIDs"] } ∧
    ((run_pipeline "a@b.com" envAllOk).resp.processedAt).isSome = true :=
  ⟨(spec_C1_abort_response "a@b.com" envAllFail).1 rfl,
   (spec_C1_abort_response "a@b.com" envAllOk).2 (by decide)⟩

/-- C2: analyze_with_ai is total and never propagates a failure: for every
outcome of the API call and parse, either the parsed value yields both keys
and the pair of their values is returned, or the function returns the
degraded pair ("Analysis unavailable: <error>", "neutral"). -/
theorem spec_C2_classifier_total (o : Except String Json) :
    (∃ j a s, o = .ok j ∧ j.getItem "analysis" = .ok a ∧ j.getItem "sentiment" = .ok s ∧
      analyze_with_ai o = (a, s)) ∨
    (∃ e, analyze_with_ai o = (.str ("Analysis unavailable: " ++ e), .str "neutral")) := by
  cases o with
  | error e => exact Or.inr ⟨e, rfl⟩
  | ok j =>
      cases ha : j.getItem "analysis" with
      | error e => exact Or.inr ⟨e, by simp [analyze_with_ai, Except.bind, ha]⟩
      | ok a =>
          cases hs : j.getItem "sentiment" with
          | error e => exact Or.inr ⟨e, by simp [analyze_with_ai, Except.bind, ha, hs]⟩
          | ok s =>
              exact Or.inl ⟨j, a, s, rfl, ha, hs, by simp [analyze_with_ai, Except.bind, ha, hs]⟩

/-- C4: a request whose source differs from "HTTPBin UUID" gets status 400
with the fixed detail, whatever the email, and no component of the pipeline
runs (the store is untouched and the call trace is empty); a request with
the exact source runs the orchestrator and returns its response with 200. -/
theorem spec_C4_source_validation (req : PipelineRequest) (env : PipelineEnv) :
    (req.source ≠ "HTTPBin UUID" →
      pipeline_endpoint req env =
        { status := 400, body := .error "Source must be \x27HTTPBin UUID\x27",
          store := env.store, calls := [] }) ∧
    (req.source = "HTTPBin UUID" →
      pipeline_endpoint req env =
        { status := 200, body := .ok (run_pipeline req.email env).resp,
          store := (run_pipeline req.email env).store,
          calls := (run_pipeline req.email env).calls }) := by
  constructor
  · intro h
    simp [pipeline_endpoint, h]
  · intro h
    simp [pipeline_endpoint, h]

/-- C4 witness: a rejected and an accepted request under envAllOk. -/
theorem spec_C4_witness :
    pipeline_endpoint ⟨"a@b.com", "httpbin uuid"⟩ envAllOk =
      { status := 400, body := .error "Source must be \x27HTTPBin UUID\x27",
        store := envAllOk.store, calls := [] } ∧
    pipeline_endpoint ⟨"a@b.com", "HTTPBin UUID"⟩ envAllOk =
      { status := 200,
        body := .ok (run_pipeline "a@b.com" envAllOk).resp,
        store := (run_pipeline "a@b.com" envAllOk).store,
        calls := (run_pipeline "a@b.com" envAllOk).calls } :=
  ⟨(spec_C4_source_validation ⟨"a@b.com", "httpbin uuid"⟩ envAllOk).1 (by decide),
   (spec_C4_source_validation ⟨"a@b.com", "HTTPBin UUID"⟩ envAllOk).2 rfl⟩

/-- C5: when store_results reports success, the store file afterwards parses
to exactly the prior sequence (empty when the file was absent) followed by
the appended records, in order. -/
theorem spec_C5_store_roundtrip (results : List Json) (fs : FileState)
    (h : (store_results results fs).1 = true) :
    loadSeq (store_results results fs).2 = some (priorSeq fs ++ results) := by
  cases fs with
  | absent => simp [store_results, loadSeq, priorSeq]
  | corrupt => simp [store_results] at h
  | content j =>
      cases j with
      | arr xs => simp [store_results, loadSeq, priorSeq]
      | null => simp [store_results] at h
      | bool b => simp [store_results] at h
      | num n => simp [store_results] at h
      | str s => simp [store_results] at h
      | obj fields => simp [store_results] at h

/-- C5 witness: appending one record to a one-record store. -/
theorem spec_C5_witness :
    loadSeq (store_results [Json.num 2] (.content (.arr [Json.num 1]))).2 =
      some (priorSeq (.content (.arr [Json.num 1])) ++ [Json.num 2]) :=
  spec_C5_store_roundtrip [Json.num 2] (.content (.arr [Json.num 1])) rfl

/-- A concrete pattern of fetch attempts: the second of three requests
fails, the other two succeed. -/
def attempts3 : Nat → Except String String :=
  fun i => if i = 0 then .ok "a" else if i = 1 then .error "x" else .ok "c"

/-- C9: for every positive count, fetch_uuids returns at most count
identifiers, namely exactly the successfully fetched ones in request order
(failures are omitted without aborting the rest), and returns the empty
sequence rather than an exception when every request fails. -/
theorem spec_C9_fetch_partial_failure (attempts : Nat → Except String String) (count : Nat)
    (h : 0 < count) :
    (fetch_uuids attempts count).length ≤ count ∧
    fetch_uuids attempts count =
      ((List.range count).filter (fun i => (attempts i).isOk)).map
        (fun i => okValue (attempts i)) ∧
    ((∀ i < count, ∃ e, attempts i = .error e) → fetch_uuids attempts count = []) := by
  refine ⟨?_, filterMap_toOption_eq attempts (List.range count), ?_⟩
  · have hl := List.length_filterMap_le (fun i => (attempts i).toOption) (List.range count)
    rw [List.length_range] at hl
    exact hl
  · intro hall
    rw [fetch_uuids, List.filterMap_eq_nil_iff]
    intro i hi
    obtain ⟨e, he⟩ := hall i (List.mem_range.mp hi)
    simp [he, Except.toOption]

/-- C9 witness: three attempts of which the second fails yield the two
successful identifiers in order. -/
theorem spec_C9_witness :
    (fetch_uuids attempts3 3).length ≤ 3 ∧
    fetch_uuids attempts3 3 =
      ((List.range 3).filter (fun i => (attempts3 i).isOk)).map
        (fun i => okValue (attempts3 i)) :=
  ⟨(spec_C9_fetch_partial_failure attempts3 3 (by decide)).1,
   (spec_C9_fetch_partial_failure attempts3 3 (by decide)).2.1⟩

/-- C10: on the Stage-1 abort path, neither store_results nor
send_notification appears in the trace of invoked components, and the store
file is exactly what it was before the request. -/
theorem spec_C10_abort_frame (email : String) (env : PipelineEnv)
    (h : fetch_uuids env.fetch 3 = []) :
    (run_pipeline email env).store = env.store ∧
    "store_results" ∉ (run_pipeline email env).calls ∧
    "send_notification" ∉ (run_pipeline email env).calls := by
  rw [run_pipeline_of_empty email env h]
  refine ⟨rfl, ?_, ?_⟩ <;> simp

/-- C10 witness: the abort run under envAllFail leaves its non-empty store
file untouched and invokes neither component. -/
theorem spec_C10_witness :
    (run_pipeline "a@b.com" envAllFail).store = envAllFail.store ∧
    "store_results" ∉ (run_pipeline "a@b.com" envAllFail).calls ∧
    "send_notification" ∉ (run_pipeline "a@b.com" envAllFail).calls :=
  spec_C10_abort_frame "a@b.com" envAllFail rfl

/-- C3: on the non-abort path, the items are exactly one AnalysisResult per
fetched identifier in fetch order, skipping exactly those identifiers whose
processing an exception escaped; each skipped identifier contributes instead
one error string "Failed to process UUID <id>: <message>"; and the number of
items plus the number of Stage-2 errors equals the number of fetched
identifiers. -/
theorem spec_C3_per_identifier (email : String) (env : PipelineEnv)
    (h : fetch_uuids env.fetch 3 ≠ []) :
    (run_pipeline email env).resp.items =
      (fetch_uuids env.fetch 3).enum.filterMap (fun p =>
        match env.exn p.1 with
        | some _ => none
        | none => some { original := p.2,
                         analysis := (analyze_with_ai (env.api p.1)).1,
                         sentiment := (analyze_with_ai (env.api p.1)).2,
                         stored := storage_outcome env,
                         timestamp := env.clock p.1 }) ∧
    (run_pipeline email env).resp.errors =
      (fetch_uuids env.fetch 3).enum.filterMap (fun p =>
        (env.exn p.1).map (fun m => "Failed to process UUID " ++ p.2 ++ ": " ++ m)) ∧
    (run_pipeline email env).resp.items.length + (run_pipeline email env).resp.errors.length =
      (fetch_uuids env.fetch 3).length := by
  rw [run_pipeline_of_ne email env h]
  refine ⟨?_, ?_, ?_⟩
  · simp only [stage2_fst, List.map_filterMap]
    congr 1
    funext p
    cases hx : env.exn p.1 <;> simp [hx, mkItem]
  · exact stage2_snd env _
  · simp only [List.length_map]
    rw [stage2_length, List.enum_length]

/-- C3 witness: under envAllOk the items and Stage-2 errors add up to the
number of fetched identifiers. -/
theorem spec_C3_witness :
    (run_pipeline "a@b.com" envAllOk).resp.items.length +
      (run_pipeline "a@b.com" envAllOk).resp.errors.length =
      (fetch_uuids envAllOk.fetch 3).length :=
  (spec_C3_per_identifier "a@b.com" envAllOk (by decide)).2.2

/-- C6: after Stage 3, every item of the returned response carries as stored
flag the single boolean store_results returned for the whole batch; in
particular all items carry the same stored value. -/
theorem spec_C6_stored_flag (email : String) (env : PipelineEnv)
    (h : fetch_uuids env.fetch 3 ≠ []) :
    (∀ r ∈ (run_pipeline email env).resp.items, r.stored = storage_outcome env) ∧
    (∀ r ∈ (run_pipeline email env).resp.items, ∀ q ∈ (run_pipeline email env).resp.items,
      r.stored = q.stored) := by
  have hi : ∀ r ∈ (run_pipeline email env).resp.items, r.stored = storage_outcome env := by
    rw [run_pipeline_of_ne email env h]
    intro r hr
    simp only [List.mem_map] at hr
    obtain ⟨x, _, rfl⟩ := hr
    rfl
  exact ⟨hi, fun r hr q hq => (hi r hr).trans (hi q hq).symm⟩

/-- C6 witness: the first item produced under envAllOk carries the batch
outcome as its stored flag. -/
theorem spec_C6_witness : item0.stored = storage_outcome envAllOk :=
  (spec_C6_stored_flag "a@b.com" envAllOk (by decide)).1 item0
    (by rw [show (run_pipeline "a@b.com" envAllOk).resp.items = [item0, item0, item0] from rfl]
        exact List.mem_cons_self item0 [item0, item0])

/-- C7: for the request with email "a@b.com" and source "HTTPBin UUID", if
all three fetch attempts succeed and every classifier call raises, the
endpoint answers 200 with a body of exactly 3 items, each with sentiment
"neutral" and an analysis of the form "Analysis unavailable: <error>", all
items sharing one stored value, an empty error list, and
notificationSent true. -/
theorem spec_C7_degraded_scenario (env : PipelineEnv) (u0 u1 u2 : String)
    (h0 : env.fetch 0 = .ok u0) (h1 : env.fetch 1 = .ok u1) (h2 : env.fetch 2 = .ok u2)
    (hapi : ∀ i, ∃ e, env.api i = .error e)
    (hexn : ∀ i, env.exn i = none) :
    (pipeline_endpoint ⟨"a@b.com", "HTTPBin UUID"⟩ env).status = 200 ∧
    ∃ resp, (pipeline_endpoint ⟨"a@b.com", "HTTPBin UUID"⟩ env).body = .ok resp ∧
      resp.items.length = 3 ∧
      (∀ r ∈ resp.items, r.sentiment = .str "neutral" ∧
        ∃ e, r.analysis = .str ("Analysis unavailable: " ++ e)) ∧
      (∀ r ∈ resp.items, ∀ q ∈ resp.items, r.stored = q.stored) ∧
      resp.errors = [] ∧
      resp.notificationSent = true := by
  obtain ⟨e0, ha0⟩ := hapi 0
  obtain ⟨e1, ha1⟩ := hapi 1
  obtain ⟨e2, ha2⟩ := hapi 2
  have hu : fetch_uuids env.fetch 3 = [u0, u1, u2] := by
    rw [fetch_uuids, show List.range 3 = [0, 1, 2] from rfl]
    simp [h0, h1, h2, Except.toOption]
  have hne : fetch_uuids env.fetch 3 ≠ [] := by
    rw [hu]; exact List.cons_ne_nil u0 [u1, u2]
  have hrun := run_pipeline_of_ne "a@b.com" env hne
  have hstage : stage2 env (fetch_uuids env.fetch 3).enum =
      ([{ original := u0, analysis := .str ("Analysis unavailable: " ++ e0),
          sentiment := .str "neutral", stored := false, timestamp := env.clock 0 },
        { original := u1, analysis := .str ("Analysis unavailable: " ++ e1),
          sentiment := .str "neutral", stored := false, timestamp := env.clock 1 },
        { original := u2, analysis := .str ("Analysis unavailable: " ++ e2),
          sentiment := .str "neutral", stored := false, timestamp := env.clock 2 }], []) := by
    rw [hu, show ([u0, u1, u2]).enum = [(0, u0), (1, u1), (2, u2)] from rfl]
    simp [stage2, processItem, hexn 0, hexn 1, hexn 2, ha0, ha1, ha2,
      analyze_with_ai, Except.bind]
  have hep : pipeline_endpoint ⟨"a@b.com", "HTTPBin UUID"⟩ env =
      { status := 200, body := .ok (run_pipeline "a@b.com" env).resp,
        store := (run_pipeline "a@b.com" env).store,
        calls := (run_pipeline "a@b.com" env).calls } := by
    simp [pipeline_endpoint]
  rw [hep]
  refine ⟨rfl, (run_pipeline "a@b.com" env).resp, rfl, ?_, ?_, ?_⟩
  · rw [hrun]
    simp only [hstage]
    rfl
  · rw [hrun]
    simp only [hstage]
    intro r hr
    simp only [List.map_cons, List.map_nil, List.mem_cons, List.not_mem_nil, or_false] at hr
    rcases hr with rfl | rfl | rfl
    · exact ⟨rfl, e0, rfl⟩
    · exact ⟨rfl, e1, rfl⟩
    · exact ⟨rfl, e2, rfl⟩
  · refine ⟨?_, ?_⟩
    · rw [hrun]
      simp only [hstage]
      intro r hr q hq
      simp only [List.map_cons, List.map_nil, List.mem_cons, List.not_mem_nil, or_false] at hr hq
      rcases hr with rfl | rfl | rfl <;> rcases hq with rfl | rfl | rfl <;> rfl
    · rw [hrun]
      simp [hstage]

/-- C7 witness: the scenario instantiated with envAllOk. -/
theorem spec_C7_witness :
    (pipeline_endpoint ⟨"a@b.com", "HTTPBin UUID"⟩ envAllOk).status = 200 ∧
    ∃ resp, (pipeline_endpoint ⟨"a@b.com", "HTTPBin UUID"⟩ envAllOk).body = .ok resp ∧
      resp.items.length = 3 ∧
      (∀ r ∈ resp.items, r.sentiment = .str "neutral" ∧
        ∃ e, r.analysis = .str ("Analysis unavailable: " ++ e)) ∧
      (∀ r ∈ resp.items, ∀ q ∈ resp.items, r.stored = q.stored) ∧
      resp.errors = [] ∧
      resp.notificationSent = true :=
  spec_C7_degraded_scenario envAllOk "u" "u" "u" rfl rfl rfl
    (fun _ => ⟨"boom", rfl⟩) (fun _ => rfl)

/-- A concrete environment whose classifier answers with a well-formed JSON
object whose sentiment field is the string "happy". -/
def env8 : PipelineEnv :=
  { fetch := fun _ => .ok "u",
    api := fun _ => .ok (.obj [("analysis", .str "a"), ("sentiment", .str "happy")]),
    exn := fun _ => none,
    store := .absent,
    clock := fun _ => "t" }

/-- C8 counterexample: under env8 the pipeline produces AnalysisResults
whose sentiment is the string "happy", which is none of "optimistic",
"pessimistic", "balanced", "neutral" — the code never validates the
sentiment value of a well-formed classifier response. -/
theorem spec_C8_counterexample :
    ((run_pipeline "a@b.com" env8).resp.items.map (fun r => r.sentiment) =
      [Json.str "happy", Json.str "happy", Json.str "happy"]) ∧
    ¬(Json.str "happy" = Json.str "optimistic" ∨ Json.str "happy" = Json.str "pessimistic" ∨
      Json.str "happy" = Json.str "balanced" ∨ Json.str "happy" = Json.str "neutral") := by
  constructor
  · rfl
  · intro hc
    rcases hc with hc | hc | hc | hc <;> simp at hc

/-- C8 amended: every AnalysisResult the pipeline produces has as sentiment
either the string "neutral" (the degraded path) or verbatim the value of
the "sentiment" key of some successfully parsed classifier response — the
code does not constrain that value to the four advertised strings. -/
theorem spec_C8_sentiment_provenance (email : String) (env : PipelineEnv) :
    ∀ r ∈ (run_pipeline email env).resp.items,
      r.sentiment = .str "neutral" ∨
      ∃ i j, env.api i = .ok j ∧ j.getItem "sentiment" = .ok r.sentiment := by
  intro r hr
  by_cases h : fetch_uuids env.fetch 3 = []
  · rw [run_pipeline_of_empty email env h] at hr
    simp at hr
  · rw [run_pipeline_of_ne email env h] at hr
    simp only [stage2_fst, List.map_filterMap, List.mem_filterMap] at hr
    obtain ⟨p, _, hp⟩ := hr
    cases hx : env.exn p.1 with
    | some m => rw [hx] at hp; simp at hp
    | none =>
        rw [hx] at hp
        simp only [Option.map_some] at hp
        have hsent : r.sentiment = (analyze_with_ai (env.api p.1)).2 := by
          rw [← Option.some.inj hp]
          rfl
        rw [hsent]
        cases ho : env.api p.1 with
        | error e => left; simp [analyze_with_ai, Except.bind, ho]
        | ok j =>
            cases ha : j.getItem "analysis" with
            | error e => left; simp [analyze_with_ai, Except.bind, ho, ha]
            | ok a =>
                cases hs : j.getItem "sentiment" with
                | error e => left; simp [analyze_with_ai, Except.bind, ho, ha, hs]
                | ok s =>
                    right
                    refine ⟨p.1, j, ho, ?_⟩
                    rw [hs]
                    simp [analyze_with_ai, Except.bind, ho, ha, hs]

/-- C8 witness: the first item produced under envAllOk took the degraded
path, so its sentiment is "neutral". -/
theorem spec_C8_witness :
    item0.sentiment = Json.str "neutral" ∨
    ∃ i j, envAllOk.api i = .ok j ∧ j.getItem "sentiment" = .ok item0.sentiment :=
  spec_C8_sentiment_provenance "a@b.com" envAllOk item0
    (by rw [show (run_pipeline "a@b.com" envAllOk).resp.items = [item0, item0, item0] from rfl]
        exact List.mem_cons_self item0 [item0, item0])
